import Mathlib

/-!
Verification of the onthespot-modified download pipeline against its
natural-language specification.  The Python source is shallowly embedded:
pure functions become Lean functions over explicit state; the ambient
wall clock, the persisted stats file and every random draw appear as
explicit arguments; the Qt queue-worker loop becomes a small-step
transition relation.
-/

namespace OnTheSpot

/-! ## Stealth mode (src/onthespot/stealth.py)

The persisted stats record `stealth_stats.json`.  The wall clock is passed
in explicitly: `today` is the string form of the current calendar date and
`nowHour` the current hour (0..23).  A missing or unreadable stats file is
modelled as `none`. -/

structure StealthStats where
  date : String
  tracks_today : Nat
  tracks_this_hour : Nat
  hour : Nat
  session_tracks : Nat
  last_download_time : ℚ
deriving DecidableEq, Repr

/-- Embedding of `_reset_stats` (stealth.py lines 34..43): a fresh record
for the current day and hour, all counters zero. -/
def _reset_stats (today : String) (nowHour : Nat) : StealthStats :=
  { date := today
    tracks_today := 0
    tracks_this_hour := 0
    hour := nowHour
    session_tracks := 0
    last_download_time := 0 }

/-- Embedding of `_load_stats` (stealth.py lines 20..31): read the persisted
record; if the file is missing or the stored date differs from today, return
a fresh reset record instead. -/
def _load_stats (stored : Option StealthStats) (today : String) (nowHour : Nat) :
    StealthStats :=
  match stored with
  | some data => if data.date ≠ today then _reset_stats today nowHour else data
  | none => _reset_stats today nowHour

/-- Embedding of `get_stealth_stats` (stealth.py lines 55..66), returning both
the record handed to the caller and the persisted file state after the call
(`_save_stats` runs only when the hourly counter was rolled over). -/
def get_stealth_stats_full (stored : Option StealthStats) (today : String)
    (nowHour : Nat) : StealthStats × Option StealthStats :=
  let stats := _load_stats stored today nowHour
  if stats.hour ≠ nowHour then
    let stats2 := { stats with hour := nowHour, tracks_this_hour := 0 }
    (stats2, some stats2)
  else
    (stats, stored)

/-- The record `get_stealth_stats` returns to its caller. -/
def get_stealth_stats (stored : Option StealthStats) (today : String)
    (nowHour : Nat) : StealthStats :=
  (get_stealth_stats_full stored today nowHour).1

/-- Embedding of `can_download` (stealth.py lines 69..87).  `nowMinute` is
the current wall-clock minute used only for the wait estimate in the reason
string. -/
def can_download (enabled : Bool) (max_per_hour max_per_day : Nat)
    (stored : Option StealthStats) (today : String) (nowHour nowMinute : Nat) :
    Bool × String :=
  if !enabled then (true, "")
  else
    let stats := get_stealth_stats stored today nowHour
    if max_per_hour ≤ stats.tracks_this_hour then
      (false, "Hourly limit reached (" ++ toString max_per_hour ++
        "/hr). Wait ~" ++ toString (60 - nowMinute) ++ " min.")
    else if max_per_day ≤ stats.tracks_today then
      (false, "Daily limit reached (" ++ toString max_per_day ++
        "/day). Try again tomorrow.")
    else
      (true, "")

/-- Appending to a non-empty string keeps it non-empty. -/
lemma append_ne_empty_of_left (a b : String) (ha : a ≠ "") : a ++ b ≠ "" := by
  intro h
  have hd := congrArg String.data h
  simp [String.data_append] at hd
  exact ha (String.ext hd.1)

/-- Claim C1: with stealth mode enabled, `can_download` returns false exactly
when the hourly counter has reached the hourly cap or the daily counter has
reached the daily cap, and whenever it returns false the reason string is
non-empty.  Stated for a stats record of the current day and hour, mirroring
the spec scenario. -/
theorem C1_can_download_iff (max_per_hour max_per_day : Nat) (s : StealthStats)
    (today : String) (nowHour nowMinute : Nat)
    (hdate : s.date = today) (hhour : s.hour = nowHour) :
    ((can_download true max_per_hour max_per_day (some s) today nowHour nowMinute).1
        = false ↔
      (max_per_hour ≤ s.tracks_this_hour ∨ max_per_day ≤ s.tracks_today)) ∧
    ((can_download true max_per_hour max_per_day (some s) today nowHour nowMinute).1
        = false →
      (can_download true max_per_hour max_per_day (some s) today nowHour nowMinute).2
        ≠ "") := by
  have hstats : get_stealth_stats (some s) today nowHour = s := by
    simp [get_stealth_stats, get_stealth_stats_full, _load_stats, hdate, hhour]
  constructor
  · by_cases h1 : max_per_hour ≤ s.tracks_this_hour
    · simp [can_download, hstats, h1]
    · by_cases h2 : max_per_day ≤ s.tracks_today
      · simp [can_download, hstats, h1, h2]
      · simp [can_download, hstats, h1, h2]
  · intro hfalse
    by_cases h1 : max_per_hour ≤ s.tracks_this_hour
    · simp [can_download, hstats, h1]
      exact append_ne_empty_of_left _ _ (append_ne_empty_of_left _ _
        (append_ne_empty_of_left _ _ (append_ne_empty_of_left _ _ (by decide))))
    · by_cases h2 : max_per_day ≤ s.tracks_today
      · simp [can_download, hstats, h1, h2]
        exact append_ne_empty_of_left _ _ (append_ne_empty_of_left _ _ (by decide))
      · simp [can_download, hstats, h1, h2] at hfalse

/-- Witness for C1 at the admission boundary of the spec: with the default
caps, a record showing 20 tracks this hour is refused, one showing 19 (and 50
today) is admitted, and the refusal reason is non-empty. -/
theorem C1_can_download_iff_witness :
    (can_download true 20 100
        (some ⟨"2026-10-12", 50, 20, 14, 7, 0⟩) "2026-10-12" 14 30).1 = false ∧
    (can_download true 20 100
        (some ⟨"2026-10-12", 50, 19, 14, 7, 0⟩) "2026-10-12" 14 30).1 = true ∧
    (can_download true 20 100
        (some ⟨"2026-10-12", 50, 20, 14, 7, 0⟩) "2026-10-12" 14 30).2 ≠ "" := by
  refine ⟨?_, by decide, ?_⟩
  · exact ((C1_can_download_iff 20 100 ⟨"2026-10-12", 50, 20, 14, 7, 0⟩
      "2026-10-12" 14 30 rfl rfl).1).2 (Or.inl (by decide))
  · exact (C1_can_download_iff 20 100 ⟨"2026-10-12", 50, 20, 14, 7, 0⟩
      "2026-10-12" 14 30 rfl rfl).2 (by decide)

/-- Claim C4: if the stored record is dated differently from today, any stats
query today returns a freshly reset record: all counters zero and the date
field equal to today. -/
theorem C4_day_rollover (s : StealthStats) (today : String) (nowHour : Nat)
    (h : s.date ≠ today) :
    get_stealth_stats (some s) today nowHour =
      { date := today, tracks_today := 0, tracks_this_hour := 0,
        hour := nowHour, session_tracks := 0, last_download_time := 0 } := by
  simp [get_stealth_stats, get_stealth_stats_full, _load_stats, _reset_stats, h]

/-- Witness for C4: a record dated yesterday queried today comes back fully
reset. -/
theorem C4_day_rollover_witness :
    get_stealth_stats (some ⟨"2026-10-11", 42, 7, 9, 3, 5⟩) "2026-10-12" 10 =
      ⟨"2026-10-12", 0, 0, 10, 0, 0⟩ :=
  C4_day_rollover ⟨"2026-10-11", 42, 7, 9, 3, 5⟩ "2026-10-12" 10 (by decide)

/-- Claim C5: querying the stats after the wall clock crossed from hour `H`
into hour `H+1` (same calendar day) yields `tracks_this_hour = 0` and the
hour field updated to the current hour, while `tracks_today` and
`session_tracks` are unchanged. -/
theorem C5_hour_rollover (s : StealthStats) (today : String)
    (hdate : s.date = today) (_hlt : s.hour < 24) :
    (get_stealth_stats (some s) today ((s.hour + 1) % 24)).tracks_this_hour = 0 ∧
    (get_stealth_stats (some s) today ((s.hour + 1) % 24)).hour = (s.hour + 1) % 24 ∧
    (get_stealth_stats (some s) today ((s.hour + 1) % 24)).tracks_today
      = s.tracks_today ∧
    (get_stealth_stats (some s) today ((s.hour + 1) % 24)).session_tracks
      = s.session_tracks := by
  have hne : s.hour ≠ (s.hour + 1) % 24 := by omega
  simp [get_stealth_stats, get_stealth_stats_full, _load_stats, hdate, hne]

/-- Witness for C5: a record at hour 13 with 9 tracks this hour, queried at
hour 14, shows zero tracks this hour with day and session counters intact. -/
theorem C5_hour_rollover_witness :
    (get_stealth_stats (some ⟨"2026-10-12", 42, 9, 13, 3, 5⟩) "2026-10-12" 14).tracks_this_hour = 0 ∧
    (get_stealth_stats (some ⟨"2026-10-12", 42, 9, 13, 3, 5⟩) "2026-10-12" 14).hour = 14 ∧
    (get_stealth_stats (some ⟨"2026-10-12", 42, 9, 13, 3, 5⟩) "2026-10-12" 14).tracks_today = 42 ∧
    (get_stealth_stats (some ⟨"2026-10-12", 42, 9, 13, 3, 5⟩) "2026-10-12" 14).session_tracks = 3 :=
  C5_hour_rollover ⟨"2026-10-12", 42, 9, 13, 3, 5⟩ "2026-10-12" rfl (by decide)

/-! ## Stealth delay (stealth.py lines 103..141)

`calculate_stealth_delay` draws two random numbers: a jitter drawn from
`uniform(-variation, variation)` and, with 10 percent probability, an extra
"distraction" pause drawn from `uniform(30, 120)`.  The draws are explicit
arguments: `u` is the jitter value, `distract` records whether the
10-percent branch fired, `extra` is the distraction value.  Durations and
delays are rationals (Python floats carry no relevant rounding here). -/

/-- The expression `(song_duration_ms or 180000)`: a missing (`None`) or
zero duration falls back to the 180000 ms default. -/
def effective_duration_ms (song_duration_ms : Option ℚ) : ℚ :=
  match song_duration_ms with
  | none => 180000
  | some dms => if dms = 0 then 180000 else dms

/-- The base delay `song_duration_sec * song_ratio` of stealth.py line 126. -/
def stealth_base_delay (song_ratio_cfg : ℚ) (song_duration_ms : Option ℚ) : ℚ :=
  effective_duration_ms song_duration_ms / 1000 * song_ratio_cfg

/-- Embedding of `calculate_stealth_delay` (stealth.py lines 103..141).
Each `random.uniform(a, b)` draw is `a + (b - a) * t` for an explicit
normalized draw `t` in `[0, 1]`: `u01` feeds the jitter draw
`uniform(-variation, variation)` and `e01` the distraction draw
`uniform(30, 120)`; `distract` records whether `random.random() < 0.1`. -/
def calculate_stealth_delay (enabled : Bool) (service : String)
    (download_delay min_delay song_ratio_cfg random_var : ℚ)
    (song_duration_ms : Option ℚ) (u01 : ℚ) (distract : Bool) (e01 : ℚ) : ℚ :=
  if !enabled || service ≠ "apple_music" then
    download_delay
  else
    let base_delay := stealth_base_delay song_ratio_cfg song_duration_ms
    let variation := base_delay * random_var
    let delay := base_delay + (-variation + (variation - -variation) * u01)
    let floored := max delay min_delay
    if distract then floored + (30 + (120 - 30) * e01) else floored

/-- The delay returned in the stealth branch, written out: the jitter-applied
base delay floored at the minimum.  Proved equal to the embedding below. -/
lemma calculate_stealth_delay_eq (download_delay m r v d u01 e01 : ℚ)
    (distract : Bool) :
    calculate_stealth_delay true "apple_music" download_delay m r v (some d)
      u01 distract e01 =
    (let B := stealth_base_delay r (some d)
     let jittered := B + (-(B * v) + (B * v - -(B * v)) * u01)
     if distract then max jittered m + (30 + (120 - 30) * e01)
     else max jittered m) := by
  cases distract <;> simp [calculate_stealth_delay]

/-- Claim C2, counterexample to its general upper bound: for a 10-second song
with the default configuration, the midpoint jitter draw (yielding jitter 0)
lies inside its stated range, no distraction bonus fires, yet the returned
delay is the 30-second floor, which exceeds
`duration_seconds * ratio * (1 + variation) = 6.5`. -/
theorem C2_short_song_counterexample :
    ((0 : ℚ) ≤ 1/2 ∧ (1/2 : ℚ) ≤ 1) ∧
    calculate_stealth_delay true "apple_music" 3 30 (1/2) (3/10) (some 10000)
      (1/2) false 0 = 30 ∧
    ¬ calculate_stealth_delay true "apple_music" 3 30 (1/2) (3/10) (some 10000)
        (1/2) false 0 ≤ 10000 / 1000 * (1/2) * (1 + 3/10) := by
  refine ⟨⟨by norm_num, by norm_num⟩, ?_, ?_⟩ <;>
    norm_num [calculate_stealth_delay, stealth_base_delay, effective_duration_ms]

/-- Claim C2 (amended): with stealth enabled and service apple_music, for any
positive duration and any jitter draw within its stated range, absent the
distraction bonus the returned delay lies between the configured minimum
floor and `max min_delay (duration_seconds * ratio * (1 + variation))`; with
the distraction bonus the delay still respects the floor.  At the spec
instance (duration 180000 ms, ratio 1/2, floor 30, variation 3/10) the upper
bound evaluates to `max 30 117 = 117`. -/
theorem C2_delay_bounds (m r v d u01 : ℚ) (hd : 0 < d) (hr : 0 ≤ r)
    (hv : 0 ≤ v) (_hu0 : 0 ≤ u01) (hu1 : u01 ≤ 1) :
    m ≤ calculate_stealth_delay true "apple_music" 3 m r v (some d) u01
      false 0 ∧
    calculate_stealth_delay true "apple_music" 3 m r v (some d) u01 false 0
      ≤ max m (d / 1000 * r * (1 + v)) ∧
    (∀ e01 : ℚ, 0 ≤ e01 →
      m ≤ calculate_stealth_delay true "apple_music" 3 m r v (some d) u01
        true e01) := by
  have hd0 : d ≠ 0 := ne_of_gt hd
  have hbase : stealth_base_delay r (some d) = d / 1000 * r := by
    simp [stealth_base_delay, effective_duration_ms, hd0]
  have hbase_nonneg : 0 ≤ stealth_base_delay r (some d) := by
    rw [hbase]
    positivity
  have hvar_nonneg : 0 ≤ stealth_base_delay r (some d) * v :=
    mul_nonneg hbase_nonneg hv
  refine ⟨?_, ?_, ?_⟩
  · rw [calculate_stealth_delay_eq]
    exact le_max_right _ _
  · rw [calculate_stealth_delay_eq]
    have hup : stealth_base_delay r (some d) +
        (-(stealth_base_delay r (some d) * v) +
          (stealth_base_delay r (some d) * v -
            -(stealth_base_delay r (some d) * v)) * u01)
        ≤ d / 1000 * r * (1 + v) := by
      have h2 : (stealth_base_delay r (some d) * v) * u01
          ≤ stealth_base_delay r (some d) * v :=
        mul_le_of_le_one_right hvar_nonneg hu1
      calc stealth_base_delay r (some d) +
            (-(stealth_base_delay r (some d) * v) +
              (stealth_base_delay r (some d) * v -
                -(stealth_base_delay r (some d) * v)) * u01)
          ≤ stealth_base_delay r (some d) + stealth_base_delay r (some d) * v :=
            by nlinarith
        _ = d / 1000 * r * (1 + v) := by rw [hbase]; ring
    exact max_le (le_trans hup (le_max_right _ _)) (le_max_left _ _)
  · intro e01 he
    rw [calculate_stealth_delay_eq]
    have hfloor : m ≤ max (stealth_base_delay r (some d) +
        (-(stealth_base_delay r (some d) * v) +
          (stealth_base_delay r (some d) * v -
            -(stealth_base_delay r (some d) * v)) * u01)) m :=
      le_max_right _ _
    dsimp only
    split <;> linarith

/-- Witness for C2 at the spec instance: duration 180000 ms, floor 30,
ratio 1/2, variation 3/10, jitter draw at its upper endpoint; the delay is
between 30 and `max 30 117 = 117`. -/
theorem C2_delay_bounds_witness :
    (0 : ℚ) < 180000 ∧
    30 ≤ calculate_stealth_delay true "apple_music" 3 30 (1/2) (3/10)
      (some 180000) 1 false 0 ∧
    calculate_stealth_delay true "apple_music" 3 30 (1/2) (3/10)
      (some 180000) 1 false 0 ≤ 117 := by
  have h := C2_delay_bounds 30 (1/2) (3/10) 180000 1 (by norm_num)
    (by norm_num) (by norm_num) (by norm_num) (by norm_num)
  refine ⟨by norm_num, h.1, le_trans h.2.1 ?_⟩
  norm_num

/-- Claim C10: for every service other than apple_music the function returns
the configured fixed inter-item delay whatever the other inputs are, stealth
mode enabled or not; and with stealth active, a missing or zero song duration
is treated exactly like the 180000 ms default. -/
theorem C10_service_gate_and_default_duration :
    (∀ (enabled : Bool) (service : String)
        (download_delay m r v u01 e01 : ℚ) (dms : Option ℚ) (distract : Bool),
      service ≠ "apple_music" →
        calculate_stealth_delay enabled service download_delay m r v dms u01
          distract e01 = download_delay) ∧
    (∀ (download_delay m r v u01 e01 : ℚ) (distract : Bool),
      calculate_stealth_delay true "apple_music" download_delay m r v none u01
          distract e01 =
        calculate_stealth_delay true "apple_music" download_delay m r v
          (some 180000) u01 distract e01 ∧
      calculate_stealth_delay true "apple_music" download_delay m r v (some 0)
          u01 distract e01 =
        calculate_stealth_delay true "apple_music" download_delay m r v
          (some 180000) u01 distract e01) := by
  constructor
  · intro enabled service download_delay m r v u01 e01 dms distract hne
    simp [calculate_stealth_delay, hne]
  · intro download_delay m r v u01 e01 distract
    constructor <;>
      simp [calculate_stealth_delay, stealth_base_delay, effective_duration_ms]

/-- Witness for C10: with stealth enabled, the spotify service gets the fixed
3-second delay even for a long song. -/
theorem C10_service_gate_witness :
    calculate_stealth_delay true "spotify" 3 30 (1/2) (3/10) (some 300000)
      5 false 0 = 3 :=
  C10_service_gate_and_default_duration.1 true "spotify" 3 30 (1/2) (3/10)
    5 0 (some 300000) false (by decide)

/-! ## Session break (stealth.py lines 144..168) -/

/-- Embedding of `check_session_break`.  The jitter `random.uniform(0.8, 1.2)`
is `4/5 + (6/5 - 4/5) * t01` for an explicit normalized draw `t01` in
`[0, 1]`.  Returns the `(needs_break, break_duration_seconds)` pair together
with the persisted stats file state after the call. -/
def check_session_break (enabled : Bool) (break_threshold : Nat)
    (break_minutes t01 : ℚ) (stored : Option StealthStats) (today : String)
    (nowHour : Nat) : (Bool × ℚ) × Option StealthStats :=
  if !enabled then ((false, 0), stored)
  else
    let p := get_stealth_stats_full stored today nowHour
    let stats := p.1
    if break_threshold ≤ stats.session_tracks then
      let stats2 := { stats with session_tracks := 0 }
      ((true, break_minutes * 60 * (4/5 + (6/5 - 4/5) * t01)), some stats2)
    else
      ((false, 0), p.2)

/-- Claim C8: with stealth enabled, `check_session_break` reports a break
exactly when the session counter has reached the configured threshold; when
it does, the returned duration is the configured break length jittered
within `[0.8, 1.2]` times its value and the persisted record has its session
counter reset to 0; when it does not, it returns 0 and the persisted stats
are unchanged.  Stated for a record of the current day and hour. -/
theorem C8_check_session_break (break_threshold : Nat) (break_minutes t01 : ℚ)
    (s : StealthStats) (today : String) (nowHour : Nat)
    (hdate : s.date = today) (hhour : s.hour = nowHour)
    (hm : 0 ≤ break_minutes) (ht0 : 0 ≤ t01) (ht1 : t01 ≤ 1) :
    ((check_session_break true break_threshold break_minutes t01 (some s)
        today nowHour).1.1 = true ↔ break_threshold ≤ s.session_tracks) ∧
    (break_threshold ≤ s.session_tracks →
      (check_session_break true break_threshold break_minutes t01 (some s)
          today nowHour).2 = some { s with session_tracks := 0 } ∧
      4/5 * (break_minutes * 60) ≤
        (check_session_break true break_threshold break_minutes t01 (some s)
          today nowHour).1.2 ∧
      (check_session_break true break_threshold break_minutes t01 (some s)
          today nowHour).1.2 ≤ 6/5 * (break_minutes * 60)) ∧
    (¬ break_threshold ≤ s.session_tracks →
      check_session_break true break_threshold break_minutes t01 (some s)
        today nowHour = ((false, 0), some s)) := by
  have hfull : get_stealth_stats_full (some s) today nowHour = (s, some s) := by
    simp [get_stealth_stats_full, _load_stats, hdate, hhour]
  refine ⟨?_, ?_, ?_⟩
  · by_cases h : break_threshold ≤ s.session_tracks <;>
      simp [check_session_break, hfull, h]
  · intro h
    refine ⟨by simp [check_session_break, hfull, h], ?_, ?_⟩ <;>
      · simp [check_session_break, hfull, h]
        nlinarith [mul_nonneg hm ht0, mul_nonneg hm (sub_nonneg.mpr ht1)]
  · intro h
    simp [check_session_break, hfull, h]

/-- Witness for C8: a session of 15 tracks with the default threshold 15 and
break length 5 minutes, jitter draw at its upper endpoint, yields a break of
360 seconds (within the 240..360 band) and a reset session counter; a
session of 14 tracks yields no break and untouched stats. -/
theorem C8_check_session_break_witness :
    ((check_session_break true 15 5 1
        (some ⟨"2026-10-12", 40, 5, 14, 15, 0⟩) "2026-10-12" 14).1.1 = true) ∧
    (check_session_break true 15 5 1
        (some ⟨"2026-10-12", 40, 5, 14, 15, 0⟩) "2026-10-12" 14).2
      = some ⟨"2026-10-12", 40, 5, 14, 0, 0⟩ ∧
    4/5 * (5 * 60) ≤ (check_session_break true 15 5 1
        (some ⟨"2026-10-12", 40, 5, 14, 15, 0⟩) "2026-10-12" 14).1.2 ∧
    (check_session_break true 15 5 1
        (some ⟨"2026-10-12", 40, 5, 14, 15, 0⟩) "2026-10-12" 14).1.2
      ≤ 6/5 * (5 * 60) ∧
    check_session_break true 15 5 1
        (some ⟨"2026-10-12", 40, 5, 14, 14, 0⟩) "2026-10-12" 14
      = ((false, 0), some ⟨"2026-10-12", 40, 5, 14, 14, 0⟩) := by
  have h1 := C8_check_session_break 15 5 1 ⟨"2026-10-12", 40, 5, 14, 15, 0⟩
    "2026-10-12" 14 rfl rfl (by norm_num) (by norm_num) (by norm_num)
  have h2 := C8_check_session_break 15 5 1 ⟨"2026-10-12", 40, 5, 14, 14, 0⟩
    "2026-10-12" 14 rfl rfl (by norm_num) (by norm_num) (by norm_num)
  have hb := h1.2.1 (by decide)
  exact ⟨h1.1.mpr (by decide), hb.1, hb.2.1, hb.2.2, h2.2.2 (by decide)⟩

/-! ## HTTP retry wrapper (src/onthespot/api/apple_music.py lines 63..95)

`_request_with_retry` performs up to `max_retries` attempts.  The network is
modelled as a function from the attempt index to that attempt's outcome:
a timeout, a connection error, or an HTTP status code
(`raise_for_status` raises exactly for codes in `[400, 600)`).  The
embedding returns the final result together with the list of back-off
sleeps performed between attempts. -/

inductive HttpOutcome where
  | timeout
  | connError
  | status (code : Nat)
deriving DecidableEq, Repr

inductive ReqError where
  | timeoutErr
  | connErr
  | httpErr (code : Nat)
  | noAttempts
deriving DecidableEq, Repr

/-- `RETRY_DELAY = 2` seconds (apple_music.py line 24). -/
def RETRY_DELAY : ℚ := 2

/-- The exception a failed attempt stores in `last_exception`. -/
def outcomeError : HttpOutcome → ReqError
  | .timeout => .timeoutErr
  | .connError => .connErr
  | .status c => .httpErr c

/-- Outcomes the loop treats as transient: timeout, connection error, or a
server-error status in `[500, 600)`. -/
def isTransient : HttpOutcome → Bool
  | .timeout => true
  | .connError => true
  | .status c => decide (500 ≤ c) && decide (c < 600)

/-- The retry loop of `_request_with_retry`.  `fuel` is the number of
attempts still allowed (initially `max_retries`, so the loop guard
`attempt < max_retries` is encoded structurally), `attempt` the current
attempt index and `last` the stored `last_exception`.  Each transient
failure sleeps `RETRY_DELAY * (attempt + 1)` before the next attempt,
except after the final one. -/
def retryGo (outcomes : Nat → HttpOutcome) (max_retries : Nat) :
    Nat → Nat → Option ReqError → Except ReqError Nat × List ℚ
  | 0, _, last => (.error (last.getD .noAttempts), [])
  | fuel + 1, attempt, _last =>
    match outcomes attempt with
    | .status c =>
      if c < 400 ∨ 600 ≤ c then
        (.ok c, [])
      else if c < 500 then
        (.error (.httpErr c), [])
      else
        let rest := retryGo outcomes max_retries fuel (attempt + 1)
          (some (.httpErr c))
        if attempt < max_retries - 1 then
          (rest.1, RETRY_DELAY * ((attempt : ℚ) + 1) :: rest.2)
        else rest
    | .timeout =>
      let rest := retryGo outcomes max_retries fuel (attempt + 1)
        (some .timeoutErr)
      if attempt < max_retries - 1 then
        (rest.1, RETRY_DELAY * ((attempt : ℚ) + 1) :: rest.2)
      else rest
    | .connError =>
      let rest := retryGo outcomes max_retries fuel (attempt + 1)
        (some .connErr)
      if attempt < max_retries - 1 then
        (rest.1, RETRY_DELAY * ((attempt : ℚ) + 1) :: rest.2)
      else rest

/-- Embedding of `_request_with_retry` (apple_music.py lines 63..95). -/
def _request_with_retry (outcomes : Nat → HttpOutcome) (max_retries : Nat) :
    Except ReqError Nat × List ℚ :=
  retryGo outcomes max_retries max_retries 0 none

/-- A transient attempt stores its error and falls through to the next
attempt, sleeping `RETRY_DELAY * (attempt + 1)` unless it was the last. -/
lemma retryGo_transient (outcomes : Nat → HttpOutcome)
    (max_retries fuel attempt : Nat) (last : Option ReqError)
    (h : isTransient (outcomes attempt) = true) :
    retryGo outcomes max_retries (fuel + 1) attempt last =
      (let rest := retryGo outcomes max_retries fuel (attempt + 1)
          (some (outcomeError (outcomes attempt)))
       if attempt < max_retries - 1 then
         (rest.1, RETRY_DELAY * ((attempt : ℚ) + 1) :: rest.2)
       else rest) := by
  cases ho : outcomes attempt with
  | timeout => simp [retryGo, ho, outcomeError]
  | connError => simp [retryGo, ho, outcomeError]
  | status c =>
    have hc : 500 ≤ c ∧ c < 600 := by
      rw [ho] at h
      simpa [isTransient] using h
    have h1 : ¬(c < 400 ∨ 600 ≤ c) := by omega
    have h2 : ¬ c < 500 := by omega
    simp only [retryGo, ho, outcomeError]
    simp [h1, h2]

/-- Claim C3: in the retry wrapper, a 4xx client-error response is raised
immediately with no retry and no back-off sleep; three consecutive transient
failures (timeout, connection error, or 5xx) exhaust the 3 allowed attempts,
sleeping 2 then 4 seconds (doubling back-off) in between, and the error of
the last attempt is raised; a transient failure followed by a success returns
that success after a single back-off sleep. -/
theorem C3_request_retry (f : Nat → HttpOutcome) :
    (∀ c : Nat, f 0 = .status c → 400 ≤ c → c < 500 →
      _request_with_retry f 3 = (.error (.httpErr c), [])) ∧
    (isTransient (f 0) = true → isTransient (f 1) = true →
      isTransient (f 2) = true →
      _request_with_retry f 3 = (.error (outcomeError (f 2)), [2, 4])) ∧
    (isTransient (f 0) = true → f 1 = .status 200 →
      _request_with_retry f 3 = (.ok 200, [2])) := by
  refine ⟨?_, ?_, ?_⟩
  · intro c h0 h400 h500
    have h1 : ¬(c < 400 ∨ 600 ≤ c) := by omega
    have h2 : c < 500 := h500
    simp [_request_with_retry, retryGo, h0, h1, h2]
  · intro h0 h1 h2
    rw [_request_with_retry, show (3 : Nat) = 2 + 1 from rfl,
      retryGo_transient f 3 2 0 none h0]
    rw [show (2 : Nat) = 1 + 1 from rfl, retryGo_transient f 3 1 1 _ h1]
    rw [show (1 : Nat) = 0 + 1 from rfl, retryGo_transient f 3 0 2 _ h2]
    norm_num [retryGo, RETRY_DELAY]
  · intro h0 h1
    rw [_request_with_retry, show (3 : Nat) = 2 + 1 from rfl,
      retryGo_transient f 3 2 0 none h0]
    norm_num [retryGo, h1, RETRY_DELAY]

/-- Witness for C3: a network that times out on every attempt makes the
wrapper raise the timeout after three attempts with back-off sleeps of 2 and
4 seconds; one that serves HTTP 404 first makes it raise immediately with no
sleeps; one that times out once and then serves HTTP 200 succeeds after one
2-second sleep. -/
theorem C3_request_retry_witness :
    _request_with_retry (fun _ => .timeout) 3 = (.error .timeoutErr, [2, 4]) ∧
    _request_with_retry (fun _ => .status 404) 3
      = (.error (.httpErr 404), []) ∧
    _request_with_retry
      (fun n => if n = 0 then .timeout else .status 200) 3 = (.ok 200, [2]) :=
  ⟨(C3_request_retry (fun _ => .timeout)).2.1 rfl rfl rfl,
   (C3_request_retry (fun _ => .status 404)).1 404 rfl (by decide) (by decide),
   (C3_request_retry (fun n => if n = 0 then .timeout else .status 200)).2.2
     rfl rfl⟩

/-! ## Download-queue item actions
(src/onthespot/qt/dl_progressbtn.py and src/onthespot/qt/mainui.py)

A queue entry is reduced to the two fields these actions touch: the
`item_status` string and the progress-bar value. -/

structure QItem where
  item_status : String
  progress : Nat
deriving DecidableEq, Repr

/-- Embedding of `cancel_item` (dl_progressbtn.py lines 48..53): sets the
status to Cancelled and the progress bar to 0, whatever the prior status. -/
def cancel_item (_item : QItem) : QItem :=
  { item_status := "Cancelled", progress := 0 }

/-- Embedding of `retry_item` (dl_progressbtn.py lines 56..61): sets the
status to Waiting and the progress bar to 0, whatever the prior status. -/
def retry_item (_item : QItem) : QItem :=
  { item_status := "Waiting", progress := 0 }

/-- Embedding of the download-queue sweep in `cancel_all_downloads`
(mainui.py lines 697..715): every item whose status is Waiting becomes
Cancelled with progress 0; every other item is left untouched.  (The
function also empties the parsing and pending maps, which hold no
`QItem`s.) -/
def cancel_all_downloads (queue : List QItem) : List QItem :=
  queue.map fun item =>
    if item.item_status = "Waiting" then
      { item_status := "Cancelled", progress := 0 }
    else item

/-- Embedding of `retry_cancelled_and_failed_downloads` (mainui.py lines
718..732): every item whose status is Failed or Cancelled becomes Waiting;
the progress bar is restyled but its value is not reset. -/
def retry_cancelled_and_failed_downloads (queue : List QItem) : List QItem :=
  queue.map fun item =>
    if item.item_status = "Failed" ∨ item.item_status = "Cancelled" then
      { item with item_status := "Waiting" }
    else item

/-- Claim C7, counterexample: the bulk retry of a Failed item with progress
50 yields a Waiting item whose progress is still 50, not 0. -/
theorem C7_bulk_retry_counterexample :
    retry_cancelled_and_failed_downloads [{ item_status := "Failed", progress := 50 }]
      = [{ item_status := "Waiting", progress := 50 }] ∧
    (50 : Nat) ≠ 0 := by
  constructor
  · simp [retry_cancelled_and_failed_downloads]
  · decide

/-- Claim C7 (amended): the single-item retry sets any item to Waiting with
progress 0; the bulk retry sets every Failed or Cancelled item to Waiting
while keeping its progress value, and leaves every item in any other status
unchanged. -/
theorem C7_retry_behaviour (item : QItem) (queue : List QItem) :
    retry_item item = { item_status := "Waiting", progress := 0 } ∧
    List.Forall₂ (fun i o =>
      ((i.item_status = "Failed" ∨ i.item_status = "Cancelled") →
        o.item_status = "Waiting" ∧ o.progress = i.progress) ∧
      (i.item_status ≠ "Failed" ∧ i.item_status ≠ "Cancelled" → o = i))
      queue (retry_cancelled_and_failed_downloads queue) := by
  refine ⟨rfl, ?_⟩
  rw [retry_cancelled_and_failed_downloads]
  rw [List.forall₂_map_right_iff]
  rw [List.forall₂_same]
  intro i _
  by_cases h : i.item_status = "Failed" ∨ i.item_status = "Cancelled"
  · refine ⟨fun _ => by simp [h], fun hc => absurd h (by simp [hc.1, hc.2])⟩
  · push_neg at h
    simp [h.1, h.2]

/-- Claim C9, counterexample: the bulk cancel leaves an in-flight
(Downloading) item entirely unchanged instead of cancelling it. -/
theorem C9_cancel_all_counterexample :
    cancel_all_downloads [{ item_status := "Downloading", progress := 37 }]
      = [{ item_status := "Downloading", progress := 37 }] ∧
    "Downloading" ≠ "Cancelled" := by
  constructor
  · simp [cancel_all_downloads]
  · decide

/-- Claim C9 (amended): the single-item cancel action sets any item, whatever
its prior status, to Cancelled with progress 0; the bulk cancel-all only
cancels items whose status is Waiting (setting progress 0) and leaves every
other item, including in-flight ones, unchanged. -/
theorem C9_cancel_behaviour (item : QItem) (queue : List QItem) :
    cancel_item item = { item_status := "Cancelled", progress := 0 } ∧
    List.Forall₂ (fun i o =>
      (i.item_status = "Waiting" →
        o = { item_status := "Cancelled", progress := 0 }) ∧
      (i.item_status ≠ "Waiting" → o = i))
      queue (cancel_all_downloads queue) := by
  refine ⟨rfl, ?_⟩
  rw [cancel_all_downloads, List.forall₂_map_right_iff, List.forall₂_same]
  intro i _
  by_cases h : i.item_status = "Waiting"
  · simp [h]
  · simp [h]

/-! ## Queue workers racing on the pending map
(src/onthespot/qt/mainui.py, `QueueWorker.run`, lines 49..70)

Each worker thread loops: if the shared `pending` dict is non-empty it reads
`local_id = next(iter(pending))` WITHOUT holding the lock, then pops that
key under `pending_lock`, fetches metadata and emits the item; any exception
is handled by re-inserting `pending[local_id] = item`, where `local_id` and
`item` are whatever those Python locals currently hold.

The embedding is a small-step transition relation.  The pending dict is an
insertion-ordered association list of `(local_id, item)`; each worker
carries a program counter and the current value of its `item` local
variable; `claimed` logs, in order, every `(worker, item)` pair a successful
pop hands out, and `submitted` logs every insertion made by the submitting
side. -/

def alistLookup (k : Nat) : List (Nat × Nat) → Option Nat
  | [] => none
  | (k2, v) :: rest => if k2 = k then some v else alistLookup k rest

def alistErase (k : Nat) : List (Nat × Nat) → List (Nat × Nat)
  | [] => []
  | (k2, v) :: rest => if k2 = k then rest else (k2, v) :: alistErase k rest

/-- A worker's position inside the loop body: at the top of the loop, having
read a key from the pending dict, or processing a popped item. -/
inductive WPC where
  | idle
  | hasKey (k : Nat)
  | working (k : Nat) (v : Nat)
deriving DecidableEq, Repr

structure WorkerSt where
  pc : WPC
  itemVar : Option Nat
deriving DecidableEq, Repr

structure QueueCfg where
  pending : List (Nat × Nat)
  workers : List WorkerSt
  claimed : List (Nat × Nat)
  submitted : List (Nat × Nat)
deriving DecidableEq, Repr

/-- One interleaved step of the queue workers or the submitting GUI thread.
Every constructor carries its target configuration together with an equation
fixing it, so concrete traces can be checked by evaluation. -/
inductive QStep : QueueCfg → QueueCfg → Prop where
  /-- The GUI thread inserts a new parse item under a fresh local id
  (fresh because local ids are uuid4 values). -/
  | submit (c : QueueCfg) (k v : Nat)
      (hk : alistLookup k c.pending = none)
      (hfresh : alistLookup k c.submitted = none)
      (c2 : QueueCfg)
      (he : c2 = { c with pending := c.pending ++ [(k, v)],
                          submitted := c.submitted ++ [(k, v)] }) :
      QStep c c2
  /-- mainui.py lines 51..53: `if pending:` then
  `local_id = next(iter(pending))`, executed without the lock — the worker
  records the first key of the dict. -/
  | readKey (c : QueueCfg) (i k v : Nat) (hi : i < c.workers.length)
      (hidle : (c.workers.get ⟨i, hi⟩).pc = .idle)
      (hhead : c.pending.head? = some (k, v))
      (c2 : QueueCfg)
      (he : c2 = { c with workers := c.workers.set i ⟨.hasKey k, (c.workers.get ⟨i, hi⟩).itemVar⟩ }) :
      QStep c c2
  /-- mainui.py lines 54..55: `with pending_lock: item = pending.pop(local_id)`
  when the key is still present — the atomic remove-and-return; the popped
  item is handed to (received by) worker `i`. -/
  | popOk (c : QueueCfg) (i k v : Nat) (hi : i < c.workers.length)
      (hpc : (c.workers.get ⟨i, hi⟩).pc = .hasKey k)
      (hlook : alistLookup k c.pending = some v)
      (c2 : QueueCfg)
      (he : c2 = { c with pending := alistErase k c.pending,
                          workers := c.workers.set i ⟨.working k v, some v⟩,
                          claimed := c.claimed ++ [(i, v)] }) :
      QStep c c2
  /-- The pop raced: the key read at line 53 is gone by line 55, `pop`
  raises `KeyError`, and the handler at lines 65..68 runs
  `pending[local_id] = item` with `item` still bound to the previous
  iteration's value `w` — the stale value is re-inserted under the new
  key. -/
  | popKeyErr (c : QueueCfg) (i k w : Nat) (hi : i < c.workers.length)
      (hpc : (c.workers.get ⟨i, hi⟩).pc = .hasKey k)
      (hlook : alistLookup k c.pending = none)
      (hvar : (c.workers.get ⟨i, hi⟩).itemVar = some w)
      (c2 : QueueCfg)
      (he : c2 = { c with pending := c.pending ++ [(k, w)],
                          workers := c.workers.set i ⟨.idle, some w⟩ }) :
      QStep c c2
  /-- mainui.py lines 56..64: token and metadata fetch succeed and the item
  is emitted; the worker returns to the loop top, its `item` local still
  bound. -/
  | metaOk (c : QueueCfg) (i k v : Nat) (hi : i < c.workers.length)
      (hpc : (c.workers.get ⟨i, hi⟩).pc = .working k v)
      (c2 : QueueCfg)
      (he : c2 = { c with workers := c.workers.set i ⟨.idle, some v⟩ }) :
      QStep c c2
  /-- mainui.py lines 65..68: the token or metadata fetch raises and the
  handler re-inserts the just-popped item under its key. -/
  | metaFail (c : QueueCfg) (i k v : Nat) (hi : i < c.workers.length)
      (hpc : (c.workers.get ⟨i, hi⟩).pc = .working k v)
      (c2 : QueueCfg)
      (he : c2 = { c with pending := c.pending ++ [(k, v)],
                          workers := c.workers.set i ⟨.idle, some v⟩ }) :
      QStep c c2

/-- Reachability through interleaved worker and submit steps. -/
def QReaches : QueueCfg → QueueCfg → Prop := Relation.ReflTransGen QStep

/-- Initial configuration of the race: item 10 pending under local id 1, two
idle workers, nothing claimed yet. -/
def raceCfg0 : QueueCfg :=
  { pending := [(1, 10)]
    workers := [⟨.idle, none⟩, ⟨.idle, none⟩]
    claimed := []
    submitted := [(1, 10)] }

/-- Final configuration of the race: item 10 has been handed out twice. -/
def raceCfg11 : QueueCfg :=
  { pending := []
    workers := [⟨.working 2 10, some 10⟩, ⟨.idle, some 10⟩]
    claimed := [(1, 10), (0, 20), (0, 10)]
    submitted := [(1, 10), (2, 20)] }

/-- Claim C6 fails on the code: from two idle workers and a single pending
item there is an interleaving — worker 1 claims and emits item 10, item 20
is submitted under id 2, both workers read key 2, worker 0 pops it, worker
1's pop raises `KeyError` and the handler re-inserts the stale item 10 under
key 2, which worker 0 then claims again.  Two distinct workers receive item
10, and three claims are handed out for two duplicate-free submissions. -/
theorem C6_double_claim_race :
    QReaches raceCfg0 raceCfg11 ∧
    raceCfg11.claimed = [(1, 10), (0, 20), (0, 10)] ∧
    (1, 10) ∈ raceCfg11.claimed ∧ (0, 10) ∈ raceCfg11.claimed ∧
    (0 : Nat) ≠ 1 ∧
    (raceCfg11.submitted.map Prod.snd).Nodup ∧
    ¬ (raceCfg11.claimed.map Prod.snd).Nodup ∧
    raceCfg11.claimed.length ≠ raceCfg11.submitted.length := by
  refine ⟨?_, by decide, by decide, by decide, by decide, by decide,
    by decide, by decide⟩
  refine Relation.ReflTransGen.head
    (QStep.readKey raceCfg0 1 1 10 (by decide) (by decide) (by decide)
      { pending := [(1, 10)]
        workers := [⟨.idle, none⟩, ⟨.hasKey 1, none⟩]
        claimed := []
        submitted := [(1, 10)] } (by decide)) ?_
  refine Relation.ReflTransGen.head
    (QStep.popOk _ 1 1 10 (by decide) (by decide) (by decide)
      { pending := []
        workers := [⟨.idle, none⟩, ⟨.working 1 10, some 10⟩]
        claimed := [(1, 10)]
        submitted := [(1, 10)] } (by decide)) ?_
  refine Relation.ReflTransGen.head
    (QStep.metaOk _ 1 1 10 (by decide) (by decide)
      { pending := []
        workers := [⟨.idle, none⟩, ⟨.idle, some 10⟩]
        claimed := [(1, 10)]
        submitted := [(1, 10)] } (by decide)) ?_
  refine Relation.ReflTransGen.head
    (QStep.submit _ 2 20 (by decide) (by decide)
      { pending := [(2, 20)]
        workers := [⟨.idle, none⟩, ⟨.idle, some 10⟩]
        claimed := [(1, 10)]
        submitted := [(1, 10), (2, 20)] } (by decide)) ?_
  refine Relation.ReflTransGen.head
    (QStep.readKey _ 0 2 20 (by decide) (by decide) (by decide)
      { pending := [(2, 20)]
        workers := [⟨.hasKey 2, none⟩, ⟨.idle, some 10⟩]
        claimed := [(1, 10)]
        submitted := [(1, 10), (2, 20)] } (by decide)) ?_
  refine Relation.ReflTransGen.head
    (QStep.readKey _ 1 2 20 (by decide) (by decide) (by decide)
      { pending := [(2, 20)]
        workers := [⟨.hasKey 2, none⟩, ⟨.hasKey 2, some 10⟩]
        claimed := [(1, 10)]
        submitted := [(1, 10), (2, 20)] } (by decide)) ?_
  refine Relation.ReflTransGen.head
    (QStep.popOk _ 0 2 20 (by decide) (by decide) (by decide)
      { pending := []
        workers := [⟨.working 2 20, some 20⟩, ⟨.hasKey 2, some 10⟩]
        claimed := [(1, 10), (0, 20)]
        submitted := [(1, 10), (2, 20)] } (by decide)) ?_
  refine Relation.ReflTransGen.head
    (QStep.popKeyErr _ 1 2 10 (by decide) (by decide) (by decide) (by decide)
      { pending := [(2, 10)]
        workers := [⟨.working 2 20, some 20⟩, ⟨.idle, some 10⟩]
        claimed := [(1, 10), (0, 20)]
        submitted := [(1, 10), (2, 20)] } (by decide)) ?_
  refine Relation.ReflTransGen.head
    (QStep.metaOk _ 0 2 20 (by decide) (by decide)
      { pending := [(2, 10)]
        workers := [⟨.idle, some 20⟩, ⟨.idle, some 10⟩]
        claimed := [(1, 10), (0, 20)]
        submitted := [(1, 10), (2, 20)] } (by decide)) ?_
  refine Relation.ReflTransGen.head
    (QStep.readKey _ 0 2 10 (by decide) (by decide) (by decide)
      { pending := [(2, 10)]
        workers := [⟨.hasKey 2, some 20⟩, ⟨.idle, some 10⟩]
        claimed := [(1, 10), (0, 20)]
        submitted := [(1, 10), (2, 20)] } (by decide)) ?_
  refine Relation.ReflTransGen.head
    (QStep.popOk _ 0 2 10 (by decide) (by decide) (by decide)
      raceCfg11 (by decide)) ?_
  exact Relation.ReflTransGen.refl

end OnTheSpot
